import Mathlib

/-!
WAR estruturado: battle resolution and mission evaluation

Shallow embedding of `src/war.c`.

* The map (`Territorio *mapa`, an array of `NUM_TERRITORIOS` records) is a
  `List Territorio`; a pointer `&mapa[i]` is the index `i`.
* `char nome[50]`, `char cor[50]` are `String`s; `strcmp(a, b) == 0` is `a = b`
  and `strcpy(dst, src)` is assignment.
* `int` is `Int`: signed overflow is undefined in C and no state considered
  here comes near the bounds of `int`.
* The two values `(rand() % 6) + 1` drawn by `simularAtaque` are taken as the
  parameters `dadoAtk`, `dadoDef`; `rolarDado` is the expression itself.
* The two numbers read by `scanf` in `faseDeAtaque` are its parameters
  `origem`, `destino`.
-/

namespace War

/-- Constant `NUM_TERRITORIOS`. -/
def NUM_TERRITORIOS : Nat := 5

/-- Constant `ID_MISSAO_DOMINAR`. -/
def ID_MISSAO_DOMINAR : Int := 1

/-- Constant `ID_MISSAO_DESTRUIR`. -/
def ID_MISSAO_DESTRUIR : Int := 2

/-- Constant `COR_JOGADOR`: the colour of the player. -/
def COR_JOGADOR : String := "Azul"

/-- Constant `COR_INIMIGO`: the colour of the enemy. -/
def COR_INIMIGO : String := "Vermelho"

/-- Record `Territorio` of the source: name, colour of the owning army, troops. -/
structure Territorio where
  nome : String
  cor : String
  tropas : Int
deriving DecidableEq, Repr, Inhabited

/-- Read of `mapa[i]`. -/
def ler (mapa : List Territorio) (i : Nat) : Territorio :=
  mapa.getD i default

/-- Assignment `mapa[i].tropas = v`. -/
def setTropas (mapa : List Territorio) (i : Nat) (v : Int) : List Territorio :=
  mapa.set i { ler mapa i with tropas := v }

/-- Assignment `strcpy(mapa[i].cor, c)`. -/
def setCor (mapa : List Territorio) (i : Nat) (c : String) : List Territorio :=
  mapa.set i { ler mapa i with cor := c }

/-- Assignment `strcpy(mapa[i].nome, s)`. -/
def setNome (mapa : List Territorio) (i : Nat) (s : String) : List Territorio :=
  mapa.set i { ler mapa i with nome := s }

/-- Result of `calloc(NUM_TERRITORIOS, sizeof(Territorio))` when it succeeds:
five zeroed records. -/
def alocarMapa : List Territorio :=
  List.replicate NUM_TERRITORIOS { nome := "", cor := "", tropas := 0 }

/-- Function `inicializarTerritorios`: the fifteen assignments, in source order. -/
def inicializarTerritorios (mapa : List Territorio) : List Territorio :=
  let mapa := setNome mapa 0 "Brasil"
  let mapa := setCor mapa 0 COR_JOGADOR
  let mapa := setTropas mapa 0 5
  let mapa := setNome mapa 1 "Franca"
  let mapa := setCor mapa 1 COR_JOGADOR
  let mapa := setTropas mapa 1 3
  let mapa := setNome mapa 2 "Australia"
  let mapa := setCor mapa 2 COR_INIMIGO
  let mapa := setTropas mapa 2 2
  let mapa := setNome mapa 3 "Egito"
  let mapa := setCor mapa 3 COR_INIMIGO
  let mapa := setTropas mapa 3 4
  let mapa := setNome mapa 4 "Russia"
  let mapa := setCor mapa 4 COR_INIMIGO
  setTropas mapa 4 3

/-- Expression `(rand() % 6) + 1`, for `r` the value returned by `rand()`. -/
def rolarDado (r : Nat) : Int :=
  ((r % 6 : Nat) : Int) + 1

/-- First half of `simularAtaque` (the `if (dadoAtk > dadoDef)` statement):
the loser of the roll loses one troop. -/
def perdaBase (mapa : List Territorio) (atacante defensor : Nat)
    (dadoAtk dadoDef : Int) : List Territorio :=
  if dadoAtk > dadoDef then
    setTropas mapa defensor ((ler mapa defensor).tropas - 1)
  else
    setTropas mapa atacante ((ler mapa atacante).tropas - 1)

/-- Second half of `simularAtaque` (the block under "Checagem de Conquista"). -/
def checagemDeConquista (mapa : List Territorio) (atacante defensor : Nat) :
    List Territorio :=
  if (ler mapa defensor).tropas ≤ 0 then
    let mapa := setCor mapa defensor (ler mapa atacante).cor
    let mapa := setTropas mapa defensor 1
    setTropas mapa atacante ((ler mapa atacante).tropas - 1)
  else
    mapa

/-- Function `simularAtaque`, on `&mapa[atacante]` and `&mapa[defensor]`, for the
dice values `dadoAtk` and `dadoDef`. -/
def simularAtaque (mapa : List Territorio) (atacante defensor : Nat)
    (dadoAtk dadoDef : Int) : List Territorio :=
  checagemDeConquista (perdaBase mapa atacante defensor dadoAtk dadoDef) atacante defensor

/-- Outcome of the checks at the head of `faseDeAtaque`, one constructor for each
message printed and `ok` when the battle is simulated. -/
inductive Validacao where
  /-- Message "IDs invalidos!" -/
  | idsInvalidos
  /-- Message "Voce so pode atacar partindo de um territorio seu!" -/
  | origemNaoJogador
  /-- Message "Voce nao pode atacar seu proprio territorio!" -/
  | proprioTerritorio
  /-- Message "Tropas insuficientes para atacar (minimo 2)." -/
  | tropasInsuficientes
  /-- No check failed. -/
  | ok
deriving DecidableEq, Repr

/-- The four checks of `faseDeAtaque`, in source order. -/
def validarAtaque (mapa : List Territorio) (origem destino : Int) : Validacao :=
  if origem < 0 ∨ origem ≥ NUM_TERRITORIOS ∨ destino < 0 ∨ destino ≥ NUM_TERRITORIOS then
    .idsInvalidos
  else if (ler mapa origem.toNat).cor ≠ COR_JOGADOR then
    .origemNaoJogador
  else if (ler mapa origem.toNat).cor = (ler mapa destino.toNat).cor then
    .proprioTerritorio
  else if (ler mapa origem.toNat).tropas ≤ 1 then
    .tropasInsuficientes
  else
    .ok

/-- Function `faseDeAtaque`: returns which branch was taken and the map after it. -/
def faseDeAtaque (mapa : List Territorio) (origem destino : Int)
    (dadoAtk dadoDef : Int) : Validacao × List Territorio :=
  match validarAtaque mapa origem destino with
  | .ok => (.ok, simularAtaque mapa origem.toNat destino.toNat dadoAtk dadoDef)
  | e => (e, mapa)

/-- The counting loop of `verificarVitoria`: the pair
`(qtdMeusTerritorios, qtdInimigos)` after the scan. -/
def contarTerritorios (mapa : List Territorio) : Int × Int :=
  (List.range NUM_TERRITORIOS).foldl
    (fun acc i =>
      if (ler mapa i).cor = COR_JOGADOR then (acc.1 + 1, acc.2) else (acc.1, acc.2 + 1))
    (0, 0)

/-- Function `verificarVitoria`. -/
def verificarVitoria (mapa : List Territorio) (idMissao : Int) : Int :=
  let qtd := contarTerritorios mapa
  if idMissao = ID_MISSAO_DOMINAR then
    if qtd.1 ≥ 4 then 1 else 0
  else if idMissao = ID_MISSAO_DESTRUIR then
    if qtd.2 = 0 then 1 else 0
  else
    0

/-- Sum of the troop counts of the map. -/
def somaTropas (mapa : List Territorio) : Int :=
  (mapa.map (fun t => t.tropas)).sum

/-- States of the game after `n` battles: the map filled by
`inicializarTerritorios`, then `n` calls of `faseDeAtaque` that passed the checks,
each with arbitrary dice. -/
inductive Alcancavel : Nat → List Territorio → Prop where
  | inicio : Alcancavel 0 (inicializarTerritorios alocarMapa)
  | ataque (n : Nat) (mapa mapa' : List Territorio) (origem destino dadoAtk dadoDef : Int) :
      Alcancavel n mapa →
      faseDeAtaque mapa origem destino dadoAtk dadoDef = (.ok, mapa') →
      Alcancavel (n + 1) mapa'

/-- One attack per entry `(origem, destino, dadoAtk, dadoDef)`: the main loop with
option 1 chosen each time; `none` as soon as an attack is turned down. -/
def jogar (mapa : List Territorio) : List (Int × Int × Int × Int) → Option (List Territorio)
  | [] => some mapa
  | (origem, destino, dadoAtk, dadoDef) :: resto =>
    match faseDeAtaque mapa origem destino dadoAtk dadoDef with
    | (.ok, mapa') => jogar mapa' resto
    | _ => none

/-- Closed enumeration of the two sides, as in the specification's data model. -/
inductive Faction where
  | Player
  | Enemy
deriving DecidableEq, Repr

/-- Closed enumeration of the two kinds of mission, as in the specification's
data model. -/
inductive Mission where
  | ConquerTerritoryThreshold (n : Nat)
  | EliminateFaction (f : Faction)
deriving DecidableEq, Repr

/-- Reference predicate written from the specification's words, on the list of
the factions of the territories: for ConquerTerritoryThreshold(n), count the
territories whose faction is Player, satisfied iff the count is at least n; for
EliminateFaction(f), count the territories whose faction is f, satisfied iff the
count is 0. -/
def check_mission_spec (store : List Faction) : Mission → Bool
  | .ConquerTerritoryThreshold n => decide (n ≤ store.count Faction.Player)
  | .EliminateFaction f => decide (store.count f = 0)

/-- A territory of the map stands for a faction of the specification: the colour
`COR_JOGADOR` for Player, the colour `COR_INIMIGO` for Enemy. -/
def Representa (t : Territorio) (f : Faction) : Prop :=
  (t.cor = COR_JOGADOR ∧ f = Faction.Player) ∨ (t.cor = COR_INIMIGO ∧ f = Faction.Enemy)

/-! ## Reading and writing the map -/

theorem ler_set (mapa : List Territorio) (i j : Nat) (t : Territorio) :
    ler (mapa.set i t) j = if i = j ∧ i < mapa.length then t else ler mapa j := by
  unfold ler
  by_cases hij : i = j
  · subst hij
    by_cases hlt : i < mapa.length
    · simp [List.getD_eq_getElem?_getD, List.getElem?_set, hlt]
    · have hnone : mapa[i]? = none := List.getElem?_eq_none (by omega)
      simp [List.getD_eq_getElem?_getD, List.getElem?_set, hlt, hnone]
  · simp [List.getD_eq_getElem?_getD, List.getElem?_set, hij]

theorem length_setTropas (mapa : List Territorio) (i : Nat) (v : Int) :
    (setTropas mapa i v).length = mapa.length := by
  simp [setTropas]

theorem length_setCor (mapa : List Territorio) (i : Nat) (c : String) :
    (setCor mapa i c).length = mapa.length := by
  simp [setCor]

theorem ler_setTropas (mapa : List Territorio) (i j : Nat) (v : Int) :
    ler (setTropas mapa i v) j
      = if i = j ∧ i < mapa.length then { ler mapa i with tropas := v } else ler mapa j := by
  simp [setTropas, ler_set]

theorem ler_setCor (mapa : List Territorio) (i j : Nat) (c : String) :
    ler (setCor mapa i c) j
      = if i = j ∧ i < mapa.length then { ler mapa i with cor := c } else ler mapa j := by
  simp [setCor, ler_set]

theorem length_perdaBase (mapa : List Territorio) (a d : Nat) (dA dD : Int) :
    (perdaBase mapa a d dA dD).length = mapa.length := by
  unfold perdaBase
  split <;> simp [length_setTropas]

theorem length_checagemDeConquista (mapa : List Territorio) (a d : Nat) :
    (checagemDeConquista mapa a d).length = mapa.length := by
  unfold checagemDeConquista
  split <;> simp [length_setTropas, length_setCor]

theorem length_simularAtaque (mapa : List Territorio) (a d : Nat) (dA dD : Int) :
    (simularAtaque mapa a d dA dD).length = mapa.length := by
  simp [simularAtaque, length_checagemDeConquista, length_perdaBase]

/-- Map after the first half of the battle, read at any index. -/
theorem ler_perdaBase (mapa : List Territorio) (a d j : Nat) (dA dD : Int)
    (ha : a < mapa.length) (hd : d < mapa.length) :
    ler (perdaBase mapa a d dA dD) j
      = if dA > dD then
          (if d = j then { ler mapa d with tropas := (ler mapa d).tropas - 1 } else ler mapa j)
        else
          (if a = j then { ler mapa a with tropas := (ler mapa a).tropas - 1 } else ler mapa j) := by
  unfold perdaBase
  split <;> simp [ler_setTropas, ha, hd]

/-- Map after the conquest check, read at any index, for two distinct territories. -/
theorem ler_checagemDeConquista (mapa : List Territorio) (a d j : Nat)
    (ha : a < mapa.length) (hd : d < mapa.length) (hne : a ≠ d) :
    ler (checagemDeConquista mapa a d) j
      = if (ler mapa d).tropas ≤ 0 then
          (if j = a then { ler mapa a with tropas := (ler mapa a).tropas - 1 }
           else if j = d then { ler mapa d with cor := (ler mapa a).cor, tropas := 1 }
           else ler mapa j)
        else ler mapa j := by
  unfold checagemDeConquista
  have hne' : d ≠ a := fun h => hne h.symm
  split
  · by_cases hja : j = a
    · subst hja
      simp [ler_setTropas, ler_setCor, length_setTropas, length_setCor, ha, hd, hne']
    · by_cases hjd : j = d
      · subst hjd
        simp [ler_setTropas, ler_setCor, length_setTropas, length_setCor, ha, hd, hne, hja]
      · have h1 : a ≠ j := fun h => hja h.symm
        have h2 : d ≠ j := fun h => hjd h.symm
        simp [ler_setTropas, ler_setCor, length_setTropas, length_setCor, hja, hjd, h1, h2]
  · rfl

/-- Map after the whole battle, read at any index, in terms of the map after the
first half. -/
theorem ler_simularAtaque (mapa : List Territorio) (a d j : Nat) (dA dD : Int)
    (ha : a < mapa.length) (hd : d < mapa.length) (hne : a ≠ d) :
    ler (simularAtaque mapa a d dA dD) j
      = if (ler (perdaBase mapa a d dA dD) d).tropas ≤ 0 then
          (if j = a then
             { ler (perdaBase mapa a d dA dD) a with
                 tropas := (ler (perdaBase mapa a d dA dD) a).tropas - 1 }
           else if j = d then
             { ler (perdaBase mapa a d dA dD) d with
                 cor := (ler (perdaBase mapa a d dA dD) a).cor, tropas := 1 }
           else ler (perdaBase mapa a d dA dD) j)
        else ler (perdaBase mapa a d dA dD) j := by
  unfold simularAtaque
  apply ler_checagemDeConquista
  · rw [length_perdaBase]; exact ha
  · rw [length_perdaBase]; exact hd
  · exact hne

/-- The attacker after the first half of the battle. -/
theorem ler_perdaBase_atacante (mapa : List Territorio) (a d : Nat) (dA dD : Int)
    (ha : a < mapa.length) (hd : d < mapa.length) (hne : a ≠ d) :
    ler (perdaBase mapa a d dA dD) a
      = if dA > dD then ler mapa a
        else { ler mapa a with tropas := (ler mapa a).tropas - 1 } := by
  rw [ler_perdaBase mapa a d a dA dD ha hd]
  have hne' : d ≠ a := fun h => hne h.symm
  simp [hne']

/-- The defender after the first half of the battle. -/
theorem ler_perdaBase_defensor (mapa : List Territorio) (a d : Nat) (dA dD : Int)
    (ha : a < mapa.length) (hd : d < mapa.length) (hne : a ≠ d) :
    ler (perdaBase mapa a d dA dD) d
      = if dA > dD then { ler mapa d with tropas := (ler mapa d).tropas - 1 }
        else ler mapa d := by
  rw [ler_perdaBase mapa a d d dA dD ha hd]
  simp [hne]

/-- A cell that is neither the attacker nor the defender, after the first half. -/
theorem ler_perdaBase_outro (mapa : List Territorio) (a d j : Nat) (dA dD : Int)
    (ha : a < mapa.length) (hd : d < mapa.length) (hja : j ≠ a) (hjd : j ≠ d) :
    ler (perdaBase mapa a d dA dD) j = ler mapa j := by
  rw [ler_perdaBase mapa a d j dA dD ha hd]
  have h1 : a ≠ j := fun h => hja h.symm
  have h2 : d ≠ j := fun h => hjd h.symm
  simp [h1, h2]

theorem getElem?_setTropas_ne (mapa : List Territorio) (i j : Nat) (v : Int) (h : j ≠ i) :
    (setTropas mapa i v)[j]? = mapa[j]? := by
  have h' : i ≠ j := fun e => h e.symm
  simp [setTropas, List.getElem?_set, h']

theorem getElem?_setCor_ne (mapa : List Territorio) (i j : Nat) (c : String) (h : j ≠ i) :
    (setCor mapa i c)[j]? = mapa[j]? := by
  have h' : i ≠ j := fun e => h e.symm
  simp [setCor, List.getElem?_set, h']

/-- A cell that is neither the attacker nor the defender is not written by the
battle (whatever the two indices are). -/
theorem getElem?_simularAtaque_outro (mapa : List Territorio) (a d j : Nat) (dA dD : Int)
    (hja : j ≠ a) (hjd : j ≠ d) :
    (simularAtaque mapa a d dA dD)[j]? = mapa[j]? := by
  have hb : (perdaBase mapa a d dA dD)[j]? = mapa[j]? := by
    unfold perdaBase
    split
    · exact getElem?_setTropas_ne _ _ _ _ hjd
    · exact getElem?_setTropas_ne _ _ _ _ hja
  unfold simularAtaque checagemDeConquista
  split
  · simp only []
    rw [getElem?_setTropas_ne _ _ _ _ hja, getElem?_setTropas_ne _ _ _ _ hjd,
      getElem?_setCor_ne _ _ _ _ hjd, hb]
  · exact hb

/-- The first half of the battle writes no name. -/
theorem perdaBase_nome (mapa : List Territorio) (a d j : Nat) (dA dD : Int)
    (ha : a < mapa.length) (hd : d < mapa.length) :
    (ler (perdaBase mapa a d dA dD) j).nome = (ler mapa j).nome := by
  rw [ler_perdaBase mapa a d j dA dD ha hd]
  split_ifs with h1 h2 h3
  · subst h2; rfl
  · rfl
  · subst h3; rfl
  · rfl

/-- The first half of the battle writes no colour. -/
theorem perdaBase_cor (mapa : List Territorio) (a d j : Nat) (dA dD : Int)
    (ha : a < mapa.length) (hd : d < mapa.length) :
    (ler (perdaBase mapa a d dA dD) j).cor = (ler mapa j).cor := by
  rw [ler_perdaBase mapa a d j dA dD ha hd]
  split_ifs with h1 h2 h3
  · subst h2; rfl
  · rfl
  · subst h3; rfl
  · rfl

/-- The attacker after the whole battle. -/
theorem ler_simularAtaque_atacante (mapa : List Territorio) (a d : Nat) (dA dD : Int)
    (ha : a < mapa.length) (hd : d < mapa.length) (hne : a ≠ d) :
    ler (simularAtaque mapa a d dA dD) a
      = if (ler (perdaBase mapa a d dA dD) d).tropas ≤ 0 then
          { ler (perdaBase mapa a d dA dD) a with
              tropas := (ler (perdaBase mapa a d dA dD) a).tropas - 1 }
        else ler (perdaBase mapa a d dA dD) a := by
  rw [ler_simularAtaque mapa a d a dA dD ha hd hne]
  simp

/-- The defender after the whole battle. -/
theorem ler_simularAtaque_defensor (mapa : List Territorio) (a d : Nat) (dA dD : Int)
    (ha : a < mapa.length) (hd : d < mapa.length) (hne : a ≠ d) :
    ler (simularAtaque mapa a d dA dD) d
      = if (ler (perdaBase mapa a d dA dD) d).tropas ≤ 0 then
          { ler (perdaBase mapa a d dA dD) d with
              cor := (ler (perdaBase mapa a d dA dD) a).cor, tropas := 1 }
        else ler (perdaBase mapa a d dA dD) d := by
  rw [ler_simularAtaque mapa a d d dA dD ha hd hne]
  have hne' : d ≠ a := fun h => hne h.symm
  simp [hne']

/-! ## The checks of `faseDeAtaque` -/

/-- What passing the four checks means. -/
theorem validarAtaque_eq_ok (mapa : List Territorio) (origem destino : Int) :
    validarAtaque mapa origem destino = .ok ↔
      (0 ≤ origem ∧ origem < 5 ∧ 0 ≤ destino ∧ destino < 5) ∧
      (ler mapa origem.toNat).cor = COR_JOGADOR ∧
      (ler mapa origem.toNat).cor ≠ (ler mapa destino.toNat).cor ∧
      2 ≤ (ler mapa origem.toNat).tropas := by
  unfold validarAtaque NUM_TERRITORIOS
  split_ifs with h1 h2 h3 h4
  · simp only [reduceCtorEq, false_iff]
    push_cast at h1
    omega
  · simp only [reduceCtorEq, false_iff]
    tauto
  · simp only [reduceCtorEq, false_iff]
    tauto
  · simp only [reduceCtorEq, false_iff]
    omega
  · simp only [true_iff]
    push_cast at h1
    refine ⟨by omega, ?_, h3, by omega⟩
    exact not_not.mp h2

/-- A pair that passes the checks names two distinct cells of the map. -/
theorem validarAtaque_ok_indices (mapa : List Territorio) (origem destino : Int)
    (h : validarAtaque mapa origem destino = .ok) :
    origem.toNat < 5 ∧ destino.toNat < 5 ∧ origem.toNat ≠ destino.toNat := by
  have h' := (validarAtaque_eq_ok mapa origem destino).mp h
  obtain ⟨⟨h1, h2, h3, h4⟩, -, hne, -⟩ := h'
  refine ⟨by omega, by omega, ?_⟩
  intro heq
  apply hne
  rw [heq]

/-- C4: the checks of faseDeAtaque let the attack through exactly when both
indices are in 0..4, the origin has the colour of the player, the two colours
differ and the origin holds at least 2 troops; otherwise the answer is the first
check that fails, in the order invalid ids, origin not of the player, own
territory, not enough troops. faseDeAtaque reports that answer and runs
simularAtaque exactly when it is ok. -/
theorem C4_validarAtaque_spec (mapa : List Territorio) (origem destino : Int) :
    (validarAtaque mapa origem destino = .ok ↔
      (0 ≤ origem ∧ origem < 5 ∧ 0 ≤ destino ∧ destino < 5) ∧
      (ler mapa origem.toNat).cor = COR_JOGADOR ∧
      (ler mapa origem.toNat).cor ≠ (ler mapa destino.toNat).cor ∧
      2 ≤ (ler mapa origem.toNat).tropas) ∧
    (validarAtaque mapa origem destino = .idsInvalidos ↔
      ¬ (0 ≤ origem ∧ origem < 5 ∧ 0 ≤ destino ∧ destino < 5)) ∧
    (validarAtaque mapa origem destino = .origemNaoJogador ↔
      (0 ≤ origem ∧ origem < 5 ∧ 0 ≤ destino ∧ destino < 5) ∧
      (ler mapa origem.toNat).cor ≠ COR_JOGADOR) ∧
    (validarAtaque mapa origem destino = .proprioTerritorio ↔
      (0 ≤ origem ∧ origem < 5 ∧ 0 ≤ destino ∧ destino < 5) ∧
      (ler mapa origem.toNat).cor = COR_JOGADOR ∧
      (ler mapa origem.toNat).cor = (ler mapa destino.toNat).cor) ∧
    (validarAtaque mapa origem destino = .tropasInsuficientes ↔
      (0 ≤ origem ∧ origem < 5 ∧ 0 ≤ destino ∧ destino < 5) ∧
      (ler mapa origem.toNat).cor = COR_JOGADOR ∧
      (ler mapa origem.toNat).cor ≠ (ler mapa destino.toNat).cor ∧
      (ler mapa origem.toNat).tropas ≤ 1) ∧
    (∀ dadoAtk dadoDef : Int,
      (faseDeAtaque mapa origem destino dadoAtk dadoDef).1
        = validarAtaque mapa origem destino ∧
      (faseDeAtaque mapa origem destino dadoAtk dadoDef).2
        = if validarAtaque mapa origem destino = .ok then
            simularAtaque mapa origem.toNat destino.toNat dadoAtk dadoDef
          else mapa) := by
  refine ⟨validarAtaque_eq_ok mapa origem destino, ?_, ?_, ?_, ?_, ?_⟩
  · unfold validarAtaque NUM_TERRITORIOS
    split_ifs with h1 h2 h3 h4 <;> simp only [reduceCtorEq, false_iff, true_iff] <;>
      push_cast at h1 <;> omega
  · unfold validarAtaque NUM_TERRITORIOS
    split_ifs with h1 h2 h3 h4 <;> simp only [reduceCtorEq, false_iff, true_iff] <;>
      push_cast at h1
    · omega
    · exact ⟨by omega, h2⟩
    · tauto
    · tauto
    · tauto
  · unfold validarAtaque NUM_TERRITORIOS
    split_ifs with h1 h2 h3 h4 <;> simp only [reduceCtorEq, false_iff, true_iff] <;>
      push_cast at h1
    · omega
    · tauto
    · exact ⟨by omega, not_not.mp h2, h3⟩
    · tauto
    · tauto
  · unfold validarAtaque NUM_TERRITORIOS
    split_ifs with h1 h2 h3 h4 <;> simp only [reduceCtorEq, false_iff, true_iff] <;>
      push_cast at h1
    · omega
    · tauto
    · tauto
    · exact ⟨by omega, not_not.mp h2, h3, h4⟩
    · intro hc
      omega
  · intro dadoAtk dadoDef
    unfold faseDeAtaque
    cases hv : validarAtaque mapa origem destino <;> simp

/-- C5, as stated, fails: on the initial map, territory 2 (Australia, of the
enemy) given as both origin and target is turned down by the check on the owner
of the origin, not by the check on attacking one's own territory. -/
theorem C5_counterexample :
    (0 : Int) ≤ 2 ∧ (2 : Int) < 5 ∧
    validarAtaque (inicializarTerritorios alocarMapa) 2 2 = .origemNaoJogador ∧
    validarAtaque (inicializarTerritorios alocarMapa) 2 2 ≠ .proprioTerritorio := by
  decide

/-- C5, amended: an index in 0..4 given as both origin and target is always
turned down, by the own-territory check when that territory has the colour of
the player and by the owner check otherwise; the map is left as it was. -/
theorem C5_self_attack_rejected (mapa : List Territorio) (i : Int)
    (h0 : 0 ≤ i) (h5 : i < 5) (dadoAtk dadoDef : Int) :
    validarAtaque mapa i i
      = (if (ler mapa i.toNat).cor = COR_JOGADOR then Validacao.proprioTerritorio
         else Validacao.origemNaoJogador) ∧
    faseDeAtaque mapa i i dadoAtk dadoDef = (validarAtaque mapa i i, mapa) := by
  have hv : validarAtaque mapa i i
      = (if (ler mapa i.toNat).cor = COR_JOGADOR then Validacao.proprioTerritorio
         else Validacao.origemNaoJogador) := by
    unfold validarAtaque NUM_TERRITORIOS
    have hr : ¬ (i < 0 ∨ i ≥ ((5 : Nat) : Int) ∨ i < 0 ∨ i ≥ ((5 : Nat) : Int)) := by
      push_cast
      omega
    rw [if_neg hr]
    by_cases hc : (ler mapa i.toNat).cor = COR_JOGADOR <;> simp [hc]
  refine ⟨hv, ?_⟩
  unfold faseDeAtaque
  rw [hv]
  by_cases hc : (ler mapa i.toNat).cor = COR_JOGADOR <;> simp [hc]

theorem C5_self_attack_rejected_witness :
    validarAtaque (inicializarTerritorios alocarMapa) 0 0
      = (if (ler (inicializarTerritorios alocarMapa) (0 : Int).toNat).cor = COR_JOGADOR
         then Validacao.proprioTerritorio else Validacao.origemNaoJogador) ∧
    faseDeAtaque (inicializarTerritorios alocarMapa) 0 0 6 1
      = (validarAtaque (inicializarTerritorios alocarMapa) 0 0,
         inicializarTerritorios alocarMapa) :=
  C5_self_attack_rejected (inicializarTerritorios alocarMapa) 0 (by decide) (by decide) 6 1

/-! ## The dice -/

/-- Every die drawn by the program is in 1..6, and every value in 1..6 is drawn
for some result of `rand()`. -/
theorem rolarDado_faixa :
    (∀ r : Nat, 1 ≤ rolarDado r ∧ rolarDado r ≤ 6) ∧
    (∀ k : Int, 1 ≤ k → k ≤ 6 → ∃ r : Nat, rolarDado r = k) := by
  constructor
  · intro r
    unfold rolarDado
    omega
  · intro k h1 h6
    refine ⟨(k - 1).toNat, ?_⟩
    unfold rolarDado
    omega

/-! ## The battle -/

/-- C3: a tie goes to the defender. For two distinct cells of the map: when the
attacker's die is not above the defender's (ties included) and the defender
holds at least 1 troop, simularAtaque takes exactly 1 troop from the attacker and
leaves the defender (troops and colour) as it was; when the attacker's die is
above the defender's, the first half of the battle takes exactly 1 troop from
the defender and none from the attacker. -/
theorem C3_tie_goes_to_defender (mapa : List Territorio) (a d : Nat) (dadoAtk dadoDef : Int)
    (ha : a < mapa.length) (hd : d < mapa.length) (hne : a ≠ d) :
    (dadoAtk ≤ dadoDef → 1 ≤ (ler mapa d).tropas →
      (ler (simularAtaque mapa a d dadoAtk dadoDef) a).tropas = (ler mapa a).tropas - 1 ∧
      (ler (simularAtaque mapa a d dadoAtk dadoDef) d).tropas = (ler mapa d).tropas ∧
      (ler (simularAtaque mapa a d dadoAtk dadoDef) d).cor = (ler mapa d).cor) ∧
    (dadoAtk > dadoDef →
      (ler (perdaBase mapa a d dadoAtk dadoDef) d).tropas = (ler mapa d).tropas - 1 ∧
      (ler (perdaBase mapa a d dadoAtk dadoDef) a).tropas = (ler mapa a).tropas) := by
  constructor
  · intro hle hpos
    have hnot : ¬ dadoAtk > dadoDef := by omega
    have hbd : ler (perdaBase mapa a d dadoAtk dadoDef) d = ler mapa d := by
      rw [ler_perdaBase_defensor mapa a d dadoAtk dadoDef ha hd hne, if_neg hnot]
    have hba : ler (perdaBase mapa a d dadoAtk dadoDef) a
        = { ler mapa a with tropas := (ler mapa a).tropas - 1 } := by
      rw [ler_perdaBase_atacante mapa a d dadoAtk dadoDef ha hd hne, if_neg hnot]
    have hnc : ¬ (ler (perdaBase mapa a d dadoAtk dadoDef) d).tropas ≤ 0 := by
      rw [hbd]; omega
    have hsa := ler_simularAtaque mapa a d a dadoAtk dadoDef ha hd hne
    have hsd := ler_simularAtaque mapa a d d dadoAtk dadoDef ha hd hne
    rw [if_neg hnc] at hsa hsd
    rw [hsa, hsd, hbd, hba]
    simp
  · intro hgt
    have hbd := ler_perdaBase_defensor mapa a d dadoAtk dadoDef ha hd hne
    have hba := ler_perdaBase_atacante mapa a d dadoAtk dadoDef ha hd hne
    rw [if_pos hgt] at hbd hba
    rw [hbd, hba]
    simp

/-- C3 at the initial map, Brasil against Australia: a tie 3-3 through the whole
battle and a win 6-1 through its first half. -/
theorem C3_tie_goes_to_defender_witness :
    ((ler (simularAtaque (inicializarTerritorios alocarMapa) 0 2 3 3) 0).tropas
        = (ler (inicializarTerritorios alocarMapa) 0).tropas - 1 ∧
      (ler (simularAtaque (inicializarTerritorios alocarMapa) 0 2 3 3) 2).tropas
        = (ler (inicializarTerritorios alocarMapa) 2).tropas ∧
      (ler (simularAtaque (inicializarTerritorios alocarMapa) 0 2 3 3) 2).cor
        = (ler (inicializarTerritorios alocarMapa) 2).cor) ∧
    ((ler (perdaBase (inicializarTerritorios alocarMapa) 0 2 6 1) 2).tropas
        = (ler (inicializarTerritorios alocarMapa) 2).tropas - 1 ∧
      (ler (perdaBase (inicializarTerritorios alocarMapa) 0 2 6 1) 0).tropas
        = (ler (inicializarTerritorios alocarMapa) 0).tropas) :=
  ⟨(C3_tie_goes_to_defender (inicializarTerritorios alocarMapa) 0 2 3 3
      (by decide) (by decide) (by decide)).1 (by decide) (by decide),
   (C3_tie_goes_to_defender (inicializarTerritorios alocarMapa) 0 2 6 1
      (by decide) (by decide) (by decide)).2 (by decide)⟩

/-- C2, as stated, fails: on the map reached from the initial one by a won attack
of Brasil on Australia, Australia holds exactly 1 troop; a second won attack
conquers it and Brasil goes from 5 troops to 4, a loss of 1 and not of 2. -/
theorem C2_counterexample :
    (ler (simularAtaque (inicializarTerritorios alocarMapa) 0 2 6 1) 2).tropas = 1 ∧
    (ler (simularAtaque (inicializarTerritorios alocarMapa) 0 2 6 1) 0).tropas = 5 ∧
    (6 : Int) > 1 ∧
    (ler (simularAtaque (simularAtaque (inicializarTerritorios alocarMapa) 0 2 6 1) 0 2 6 1)
      0).tropas = 4 ∧
    (ler (simularAtaque (simularAtaque (inicializarTerritorios alocarMapa) 0 2 6 1) 0 2 6 1)
      0).tropas
      ≠ (ler (simularAtaque (inicializarTerritorios alocarMapa) 0 2 6 1) 0).tropas - 2 := by
  decide

/-- C2, amended: for two distinct cells of the map, when the defender holds
exactly 1 troop and the attacker's die is above the defender's, after
simularAtaque the defender holds 1 troop and has the colour of the attacker, and
the attacker has lost exactly 1 troop in total. -/
theorem C2_conquest_scenario (mapa : List Territorio) (a d : Nat) (dadoAtk dadoDef : Int)
    (ha : a < mapa.length) (hd : d < mapa.length) (hne : a ≠ d)
    (hum : (ler mapa d).tropas = 1) (hgt : dadoAtk > dadoDef) :
    (ler (simularAtaque mapa a d dadoAtk dadoDef) d).tropas = 1 ∧
    (ler (simularAtaque mapa a d dadoAtk dadoDef) d).cor = (ler mapa a).cor ∧
    (ler (simularAtaque mapa a d dadoAtk dadoDef) d).cor
      = (ler (simularAtaque mapa a d dadoAtk dadoDef) a).cor ∧
    (ler (simularAtaque mapa a d dadoAtk dadoDef) a).tropas = (ler mapa a).tropas - 1 := by
  have hbd := ler_perdaBase_defensor mapa a d dadoAtk dadoDef ha hd hne
  have hba := ler_perdaBase_atacante mapa a d dadoAtk dadoDef ha hd hne
  rw [if_pos hgt] at hbd hba
  have hc : (ler (perdaBase mapa a d dadoAtk dadoDef) d).tropas ≤ 0 := by
    rw [hbd]; simp [hum]
  have hsa := ler_simularAtaque mapa a d a dadoAtk dadoDef ha hd hne
  have hsd := ler_simularAtaque mapa a d d dadoAtk dadoDef ha hd hne
  have hne' : d ≠ a := fun h => hne h.symm
  rw [if_pos hc] at hsa hsd
  rw [if_pos rfl] at hsa
  rw [if_neg hne', if_pos rfl] at hsd
  rw [hsa, hsd, hba]
  simp

/-- C2 amended, at the map where Australia is down to 1 troop. -/
theorem C2_conquest_scenario_witness :
    (ler (simularAtaque (inicializarTerritorios alocarMapa) 0 2 6 1) 2).tropas = 1 ∧
    (6 : Int) > 1 ∧
    (ler (simularAtaque (simularAtaque (inicializarTerritorios alocarMapa) 0 2 6 1) 0 2 6 1)
      0).tropas
      = (ler (simularAtaque (inicializarTerritorios alocarMapa) 0 2 6 1) 0).tropas - 1 :=
  ⟨by decide, by decide,
   (C2_conquest_scenario (simularAtaque (inicializarTerritorios alocarMapa) 0 2 6 1) 0 2 6 1
      (by decide) (by decide) (by decide) (by decide) (by decide)).2.2.2⟩

/-- C9: the decrement of the conquest block is unconditional and not clamped. For
two distinct cells of the map (validated or not) and any dice, whenever the
defender holds 0 troops or fewer after the first half of the battle, the
attacker ends with one troop fewer than it had after the first half, whatever
that number was; and an attacker holding 0 troops that wins against a defender
holding 1 ends the battle with -1 troops. -/
theorem C9_conquest_decrement_unclamped :
    (∀ (mapa : List Territorio) (a d : Nat) (dadoAtk dadoDef : Int),
      a < mapa.length → d < mapa.length → a ≠ d →
      (ler (perdaBase mapa a d dadoAtk dadoDef) d).tropas ≤ 0 →
      (ler (simularAtaque mapa a d dadoAtk dadoDef) a).tropas
        = (ler (perdaBase mapa a d dadoAtk dadoDef) a).tropas - 1) ∧
    (∃ (mapa : List Territorio) (a d : Nat) (dadoAtk dadoDef : Int),
      a < mapa.length ∧ d < mapa.length ∧ a ≠ d ∧
      (ler mapa a).tropas = 0 ∧ (ler mapa d).tropas = 1 ∧ dadoAtk > dadoDef ∧
      (ler (simularAtaque mapa a d dadoAtk dadoDef) a).tropas = -1 ∧
      (ler (simularAtaque mapa a d dadoAtk dadoDef) a).tropas < 0) := by
  constructor
  · intro mapa a d dadoAtk dadoDef ha hd hne hc
    have hsa := ler_simularAtaque mapa a d a dadoAtk dadoDef ha hd hne
    rw [if_pos hc, if_pos rfl] at hsa
    rw [hsa]
  · refine ⟨[{ nome := "Brasil", cor := COR_JOGADOR, tropas := 0 },
      { nome := "Egito", cor := COR_INIMIGO, tropas := 1 }], 0, 1, 6, 1, ?_⟩
    decide

/-- C9 at a two-cell map whose attacker holds 0 troops: the first half leaves the
defender at 0 and the attacker ends at -1. -/
theorem C9_conquest_decrement_unclamped_witness :
    (ler (perdaBase [{ nome := "Brasil", cor := COR_JOGADOR, tropas := 0 },
        { nome := "Egito", cor := COR_INIMIGO, tropas := 1 }] 0 1 6 1) 1).tropas ≤ 0 ∧
    (ler (simularAtaque [{ nome := "Brasil", cor := COR_JOGADOR, tropas := 0 },
        { nome := "Egito", cor := COR_INIMIGO, tropas := 1 }] 0 1 6 1) 0).tropas
      = (ler (perdaBase [{ nome := "Brasil", cor := COR_JOGADOR, tropas := 0 },
        { nome := "Egito", cor := COR_INIMIGO, tropas := 1 }] 0 1 6 1) 0).tropas - 1 :=
  ⟨by decide,
   C9_conquest_decrement_unclamped.1 [{ nome := "Brasil", cor := COR_JOGADOR, tropas := 0 },
        { nome := "Egito", cor := COR_INIMIGO, tropas := 1 }] 0 1 6 1
      (by decide) (by decide) (by decide) (by decide)⟩

/-- C1: for a map of 5 territories, a pair that passes the checks of
faseDeAtaque and any dice, simularAtaque either triggers no conquest (the
defender still holds more than 0 troops after the first half) and then exactly
one territory, the loser of the roll, has its troop count changed, by -1, every
other territory being left as it was; or triggers the conquest, and then the
defender takes the colour of the attacker (which it did not have), holds 1 troop,
and the attacker holds one troop fewer than after the first half. -/
theorem C1_resolve_attack (mapa : List Territorio) (origem destino dadoAtk dadoDef : Int)
    (hlen : mapa.length = 5) (hv : validarAtaque mapa origem destino = .ok) :
    (¬ (ler (perdaBase mapa origem.toNat destino.toNat dadoAtk dadoDef)
          destino.toNat).tropas ≤ 0 →
      ∃ i, i < 5 ∧ i = (if dadoAtk > dadoDef then destino.toNat else origem.toNat) ∧
        (ler (simularAtaque mapa origem.toNat destino.toNat dadoAtk dadoDef) i).tropas
          = (ler mapa i).tropas - 1 ∧
        (ler (simularAtaque mapa origem.toNat destino.toNat dadoAtk dadoDef) i).cor
          = (ler mapa i).cor ∧
        (ler (simularAtaque mapa origem.toNat destino.toNat dadoAtk dadoDef) i).nome
          = (ler mapa i).nome ∧
        ∀ j, j ≠ i →
          ler (simularAtaque mapa origem.toNat destino.toNat dadoAtk dadoDef) j
            = ler mapa j) ∧
    ((ler (perdaBase mapa origem.toNat destino.toNat dadoAtk dadoDef)
          destino.toNat).tropas ≤ 0 →
      (ler (simularAtaque mapa origem.toNat destino.toNat dadoAtk dadoDef)
          destino.toNat).cor = (ler mapa origem.toNat).cor ∧
      (ler (simularAtaque mapa origem.toNat destino.toNat dadoAtk dadoDef)
          destino.toNat).cor ≠ (ler mapa destino.toNat).cor ∧
      (ler (simularAtaque mapa origem.toNat destino.toNat dadoAtk dadoDef)
          destino.toNat).tropas = 1 ∧
      (ler (simularAtaque mapa origem.toNat destino.toNat dadoAtk dadoDef)
          origem.toNat).tropas
        = (ler (perdaBase mapa origem.toNat destino.toNat dadoAtk dadoDef)
            origem.toNat).tropas - 1 ∧
      (ler (perdaBase mapa origem.toNat destino.toNat dadoAtk dadoDef)
            origem.toNat).tropas
        = (if dadoAtk > dadoDef then (ler mapa origem.toNat).tropas
           else (ler mapa origem.toNat).tropas - 1)) := by
  obtain ⟨ho, hdn, hne⟩ := validarAtaque_ok_indices mapa origem destino hv
  obtain ⟨-, -, hcor, -⟩ := (validarAtaque_eq_ok mapa origem destino).mp hv
  generalize origem.toNat = a at *
  generalize destino.toNat = d at *
  have ha : a < mapa.length := by omega
  have hd : d < mapa.length := by omega
  have hne' : d ≠ a := fun h => hne h.symm
  have hbd := ler_perdaBase_defensor mapa a d dadoAtk dadoDef ha hd hne
  have hba := ler_perdaBase_atacante mapa a d dadoAtk dadoDef ha hd hne
  constructor
  · intro hnc
    have hs : ∀ j, ler (simularAtaque mapa a d dadoAtk dadoDef) j
        = ler (perdaBase mapa a d dadoAtk dadoDef) j := by
      intro j
      rw [ler_simularAtaque mapa a d j dadoAtk dadoDef ha hd hne, if_neg hnc]
    by_cases hgt : dadoAtk > dadoDef
    · refine ⟨d, hdn, by rw [if_pos hgt], ?_, ?_, ?_, ?_⟩
      · rw [hs, hbd, if_pos hgt]
      · rw [hs, hbd, if_pos hgt]
      · rw [hs, hbd, if_pos hgt]
      · intro j hj
        rw [hs, ler_perdaBase mapa a d j dadoAtk dadoDef ha hd, if_pos hgt]
        have : d ≠ j := fun h => hj h.symm
        simp [this]
    · refine ⟨a, ho, by rw [if_neg hgt], ?_, ?_, ?_, ?_⟩
      · rw [hs, hba, if_neg hgt]
      · rw [hs, hba, if_neg hgt]
      · rw [hs, hba, if_neg hgt]
      · intro j hj
        rw [hs, ler_perdaBase mapa a d j dadoAtk dadoDef ha hd, if_neg hgt]
        have : a ≠ j := fun h => hj h.symm
        simp [this]
  · intro hc
    have hsa := ler_simularAtaque mapa a d a dadoAtk dadoDef ha hd hne
    have hsd := ler_simularAtaque mapa a d d dadoAtk dadoDef ha hd hne
    rw [if_pos hc, if_pos rfl] at hsa
    rw [if_pos hc, if_neg hne', if_pos rfl] at hsd
    have hcorA : (ler (perdaBase mapa a d dadoAtk dadoDef) a).cor = (ler mapa a).cor := by
      rw [hba]; split <;> rfl
    refine ⟨?_, ?_, ?_, ?_, ?_⟩
    · rw [hsd]; exact hcorA
    · rw [hsd]; simpa [hcorA] using hcor
    · rw [hsd]
    · rw [hsa]
    · rw [hba]; split <;> rfl

/-- C1 on the initial map, Brasil against Australia: with dice 6-1 no conquest
and only Australia changes; on the map so reached, dice 6-1 conquer Australia. -/
theorem C1_resolve_attack_witness :
    (∃ i, i < 5 ∧ i = (if (6 : Int) > 1 then (2 : Int).toNat else (0 : Int).toNat) ∧
        (ler (simularAtaque (inicializarTerritorios alocarMapa)
            (0 : Int).toNat (2 : Int).toNat 6 1) i).tropas
          = (ler (inicializarTerritorios alocarMapa) i).tropas - 1 ∧
        (ler (simularAtaque (inicializarTerritorios alocarMapa)
            (0 : Int).toNat (2 : Int).toNat 6 1) i).cor
          = (ler (inicializarTerritorios alocarMapa) i).cor ∧
        (ler (simularAtaque (inicializarTerritorios alocarMapa)
            (0 : Int).toNat (2 : Int).toNat 6 1) i).nome
          = (ler (inicializarTerritorios alocarMapa) i).nome ∧
        ∀ j, j ≠ i →
          ler (simularAtaque (inicializarTerritorios alocarMapa)
            (0 : Int).toNat (2 : Int).toNat 6 1) j
            = ler (inicializarTerritorios alocarMapa) j) ∧
    (ler (simularAtaque (simularAtaque (inicializarTerritorios alocarMapa) 0 2 6 1)
        (0 : Int).toNat (2 : Int).toNat 6 1) (2 : Int).toNat).tropas = 1 :=
  ⟨(C1_resolve_attack (inicializarTerritorios alocarMapa) 0 2 6 1
      (by decide) (by decide)).1 (by decide),
   ((C1_resolve_attack (simularAtaque (inicializarTerritorios alocarMapa) 0 2 6 1) 0 2 6 1
      (by decide) (by decide)).2 (by decide)).2.2.1⟩

/-- C8: an attack changes nothing but the colour and troop count of the two
territories involved. For a map of 5 territories: when the pair passes the
checks, the map after simularAtaque still has 5 territories, every territory
other than the attacker and the defender is as it was, the names of the attacker
and of the defender are as they were and so is the colour of the attacker; when
a check fails, faseDeAtaque returns the map as it was. -/
theorem C8_frame (mapa : List Territorio) (origem destino dadoAtk dadoDef : Int)
    (hlen : mapa.length = 5) :
    (validarAtaque mapa origem destino = .ok →
      origem.toNat ≠ destino.toNat ∧
      (faseDeAtaque mapa origem destino dadoAtk dadoDef).2
        = simularAtaque mapa origem.toNat destino.toNat dadoAtk dadoDef ∧
      (simularAtaque mapa origem.toNat destino.toNat dadoAtk dadoDef).length = 5 ∧
      (∀ j, j ≠ origem.toNat → j ≠ destino.toNat →
        (simularAtaque mapa origem.toNat destino.toNat dadoAtk dadoDef)[j]? = mapa[j]?) ∧
      (ler (simularAtaque mapa origem.toNat destino.toNat dadoAtk dadoDef)
          origem.toNat).nome = (ler mapa origem.toNat).nome ∧
      (ler (simularAtaque mapa origem.toNat destino.toNat dadoAtk dadoDef)
          destino.toNat).nome = (ler mapa destino.toNat).nome ∧
      (ler (simularAtaque mapa origem.toNat destino.toNat dadoAtk dadoDef)
          origem.toNat).cor = (ler mapa origem.toNat).cor) ∧
    (validarAtaque mapa origem destino ≠ .ok →
      (faseDeAtaque mapa origem destino dadoAtk dadoDef).2 = mapa) := by
  constructor
  · intro hv
    obtain ⟨ho, hdn, hne⟩ := validarAtaque_ok_indices mapa origem destino hv
    have hfase : (faseDeAtaque mapa origem destino dadoAtk dadoDef).2
        = simularAtaque mapa origem.toNat destino.toNat dadoAtk dadoDef := by
      unfold faseDeAtaque
      rw [hv]
    refine ⟨hne, hfase, ?_, ?_, ?_, ?_, ?_⟩
    · rw [length_simularAtaque, hlen]
    · intro j hja hjd
      exact getElem?_simularAtaque_outro mapa _ _ j dadoAtk dadoDef hja hjd
    all_goals
      generalize origem.toNat = a at *
      generalize destino.toNat = d at *
      have ha : a < mapa.length := by omega
      have hd : d < mapa.length := by omega
    · rw [ler_simularAtaque_atacante mapa a d dadoAtk dadoDef ha hd hne]
      split <;> exact perdaBase_nome mapa a d a dadoAtk dadoDef ha hd
    · rw [ler_simularAtaque_defensor mapa a d dadoAtk dadoDef ha hd hne]
      split <;> exact perdaBase_nome mapa a d d dadoAtk dadoDef ha hd
    · rw [ler_simularAtaque_atacante mapa a d dadoAtk dadoDef ha hd hne]
      split <;> exact perdaBase_cor mapa a d a dadoAtk dadoDef ha hd
  · intro hv
    unfold faseDeAtaque
    cases h : validarAtaque mapa origem destino <;> simp_all

/-- C8 on the initial map: the accepted attack of Brasil on Australia leaves
cells 1, 3 and 4 alone, and the attack of Australia on Brasil is turned down and
leaves the map as it was. -/
theorem C8_frame_witness :
    (simularAtaque (inicializarTerritorios alocarMapa)
        (0 : Int).toNat (2 : Int).toNat 6 1).length = 5 ∧
    (faseDeAtaque (inicializarTerritorios alocarMapa) 2 0 6 1).2
      = inicializarTerritorios alocarMapa :=
  ⟨((C8_frame (inicializarTerritorios alocarMapa) 0 2 6 1 (by decide)).1 (by decide)).2.2.1,
   (C8_frame (inicializarTerritorios alocarMapa) 2 0 6 1 (by decide)).2 (by decide)⟩

/-! ## The mission check -/

/-- The counting loop, on a map of 5 territories, counts the territories of the
player's colour and those of any other colour. -/
theorem contarTerritorios_eq (mapa : List Territorio) (hlen : mapa.length = 5) :
    contarTerritorios mapa
      = (((mapa.countP (fun t => decide (t.cor = COR_JOGADOR)) : Nat) : Int),
         ((mapa.countP (fun t => !decide (t.cor = COR_JOGADOR)) : Nat) : Int)) := by
  match mapa, hlen with
  | [t0, t1, t2, t3, t4], _ =>
    simp only [contarTerritorios, NUM_TERRITORIOS, List.range, List.range.loop, List.foldl,
      ler, List.getD_cons_zero, List.getD_cons_succ, List.countP_cons, List.countP_nil]
    by_cases h0 : t0.cor = COR_JOGADOR <;> by_cases h1 : t1.cor = COR_JOGADOR <;>
      by_cases h2 : t2.cor = COR_JOGADOR <;> by_cases h3 : t3.cor = COR_JOGADOR <;>
      by_cases h4 : t4.cor = COR_JOGADOR <;> simp [h0, h1, h2, h3, h4]

/-- Counting on the specification's side and on the map agree. -/
theorem count_of_representa (mapa : List Territorio) (store : List Faction)
    (h : List.Forall₂ Representa mapa store) :
    store.count Faction.Player = mapa.countP (fun t => decide (t.cor = COR_JOGADOR)) ∧
    store.count Faction.Enemy = mapa.countP (fun t => !decide (t.cor = COR_JOGADOR)) ∧
    store.count Faction.Enemy = mapa.countP (fun t => decide (t.cor = COR_INIMIGO)) := by
  induction h with
  | nil => simp
  | cons hr _ ih =>
    obtain ⟨ih1, ih2, ih3⟩ := ih
    have ih23 := ih2.symm.trans ih3
    rcases hr with ⟨hc, hf⟩ | ⟨hc, hf⟩
    · subst hf
      have hni : ¬ COR_JOGADOR = COR_INIMIGO := by decide
      simp [List.count_cons, List.countP_cons, hc, ih1, ih2, ih3, ih23, hni]
    · subst hf
      have hni : ¬ COR_INIMIGO = COR_JOGADOR := by decide
      simp [List.count_cons, List.countP_cons, hc, ih1, ih2, ih3, ih23, hni]

/-- C6: verificarVitoria is the reference predicate on every map of 5
territories. With ID_MISSAO_DOMINAR it returns 1 exactly when at least 4
territories have the player's colour; with ID_MISSAO_DESTRUIR it returns 1
exactly when no territory has another colour; it returns 0 or 1. For every list
of factions that the map stands for (player's colour for Player, enemy's colour
for Enemy) it agrees with check_mission_spec on ConquerTerritoryThreshold(4) and
on EliminateFaction(Enemy), the latter being that no territory has the enemy's
colour. -/
theorem C6_verificarVitoria_spec (mapa : List Territorio) (hlen : mapa.length = 5) :
    (verificarVitoria mapa ID_MISSAO_DOMINAR = 1 ↔
      4 ≤ mapa.countP (fun t => decide (t.cor = COR_JOGADOR))) ∧
    (verificarVitoria mapa ID_MISSAO_DESTRUIR = 1 ↔
      mapa.countP (fun t => !decide (t.cor = COR_JOGADOR)) = 0) ∧
    (∀ idMissao : Int,
      verificarVitoria mapa idMissao = 0 ∨ verificarVitoria mapa idMissao = 1) ∧
    (∀ store : List Faction, List.Forall₂ Representa mapa store →
      (verificarVitoria mapa ID_MISSAO_DOMINAR = 1 ↔
        check_mission_spec store (Mission.ConquerTerritoryThreshold 4) = true) ∧
      (verificarVitoria mapa ID_MISSAO_DESTRUIR = 1 ↔
        check_mission_spec store (Mission.EliminateFaction Faction.Enemy) = true) ∧
      (verificarVitoria mapa ID_MISSAO_DESTRUIR = 1 ↔
        mapa.countP (fun t => decide (t.cor = COR_INIMIGO)) = 0)) := by
  have hcnt := contarTerritorios_eq mapa hlen
  have h1 : verificarVitoria mapa ID_MISSAO_DOMINAR = 1 ↔
      4 ≤ mapa.countP (fun t => decide (t.cor = COR_JOGADOR)) := by
    simp only [verificarVitoria, hcnt, if_true]
    split_ifs with h
    · simp only [true_iff]; omega
    · simp only [zero_ne_one, false_iff]; omega
  have h2 : verificarVitoria mapa ID_MISSAO_DESTRUIR = 1 ↔
      mapa.countP (fun t => !decide (t.cor = COR_JOGADOR)) = 0 := by
    have hid : ¬ ID_MISSAO_DESTRUIR = ID_MISSAO_DOMINAR := by decide
    simp only [verificarVitoria, hcnt, if_neg hid, if_true]
    split_ifs with h
    · simp only [true_iff]; omega
    · simp only [zero_ne_one, false_iff]; omega
  refine ⟨h1, h2, ?_, ?_⟩
  · intro idMissao
    unfold verificarVitoria
    simp only []
    split_ifs <;> simp
  · intro store hrep
    obtain ⟨c1, c2, c3⟩ := count_of_representa mapa store hrep
    refine ⟨?_, ?_, ?_⟩
    · rw [h1]; simp [check_mission_spec, c1]
    · rw [h2]; simp [check_mission_spec, c2]
    · rw [h2, ← c2, c3]

/-- C6 on a map with 4 territories of the player out of 5, and on the initial map
(2 of the player, 3 of the enemy) against its list of factions. -/
theorem C6_verificarVitoria_spec_witness :
    verificarVitoria
      [{ nome := "Brasil", cor := COR_JOGADOR, tropas := 3 },
       { nome := "Franca", cor := COR_JOGADOR, tropas := 1 },
       { nome := "Australia", cor := COR_JOGADOR, tropas := 1 },
       { nome := "Egito", cor := COR_JOGADOR, tropas := 1 },
       { nome := "Russia", cor := COR_INIMIGO, tropas := 3 }] ID_MISSAO_DOMINAR = 1 ∧
    (verificarVitoria (inicializarTerritorios alocarMapa) ID_MISSAO_DESTRUIR = 1 ↔
      check_mission_spec
        [Faction.Player, Faction.Player, Faction.Enemy, Faction.Enemy, Faction.Enemy]
        (Mission.EliminateFaction Faction.Enemy) = true) :=
  ⟨(C6_verificarVitoria_spec _ (by decide)).1.mpr (by decide),
   ((C6_verificarVitoria_spec (inicializarTerritorios alocarMapa) (by decide)).2.2.2
      [Faction.Player, Faction.Player, Faction.Enemy, Faction.Enemy, Faction.Enemy]
      (List.Forall₂.cons (Or.inl ⟨by decide, rfl⟩)
        (List.Forall₂.cons (Or.inl ⟨by decide, rfl⟩)
          (List.Forall₂.cons (Or.inr ⟨by decide, rfl⟩)
            (List.Forall₂.cons (Or.inr ⟨by decide, rfl⟩)
              (List.Forall₂.cons (Or.inr ⟨by decide, rfl⟩) List.Forall₂.nil)))))).2.1⟩

/-! ## Reachable states -/

theorem ler_mem (mapa : List Territorio) (i : Nat) (h : i < mapa.length) :
    ler mapa i ∈ mapa := by
  unfold ler
  rw [List.getD_eq_getElem _ _ h]
  exact List.getElem_mem h

theorem mem_ler (mapa : List Territorio) (t : Territorio) (h : t ∈ mapa) :
    ∃ i, i < mapa.length ∧ ler mapa i = t := by
  obtain ⟨i, hi, he⟩ := List.getElem_of_mem h
  refine ⟨i, hi, ?_⟩
  unfold ler
  rw [List.getD_eq_getElem _ _ hi]
  exact he

theorem ler_eq_of_getElem? (m1 m2 : List Territorio) (j : Nat) (h : m1[j]? = m2[j]?) :
    ler m1 j = ler m2 j := by
  unfold ler
  rw [List.getD_eq_getElem?_getD, List.getD_eq_getElem?_getD, h]

theorem faseDeAtaque_ok (mapa mapa' : List Territorio) (origem destino dadoAtk dadoDef : Int)
    (h : faseDeAtaque mapa origem destino dadoAtk dadoDef = (.ok, mapa')) :
    validarAtaque mapa origem destino = .ok ∧
    mapa' = simularAtaque mapa origem.toNat destino.toNat dadoAtk dadoDef := by
  unfold faseDeAtaque at h
  cases hv : validarAtaque mapa origem destino <;> rw [hv] at h <;> simp at h
  exact ⟨rfl, h.symm⟩

/-- A battle that passed the checks keeps every territory at 1 troop or more and
in one of the two colours. -/
theorem simularAtaque_inv (mapa : List Territorio) (origem destino dadoAtk dadoDef : Int)
    (hlen : mapa.length = 5)
    (hinv : ∀ i, i < 5 → 1 ≤ (ler mapa i).tropas ∧
      ((ler mapa i).cor = COR_JOGADOR ∨ (ler mapa i).cor = COR_INIMIGO))
    (hv : validarAtaque mapa origem destino = .ok) :
    ∀ i, i < 5 →
      1 ≤ (ler (simularAtaque mapa origem.toNat destino.toNat dadoAtk dadoDef) i).tropas ∧
      ((ler (simularAtaque mapa origem.toNat destino.toNat dadoAtk dadoDef) i).cor
          = COR_JOGADOR ∨
       (ler (simularAtaque mapa origem.toNat destino.toNat dadoAtk dadoDef) i).cor
          = COR_INIMIGO) := by
  obtain ⟨ho, hdn, hne⟩ := validarAtaque_ok_indices mapa origem destino hv
  obtain ⟨-, hcorA, -, htro⟩ := (validarAtaque_eq_ok mapa origem destino).mp hv
  generalize origem.toNat = a at *
  generalize destino.toNat = d at *
  have ha : a < mapa.length := by omega
  have hd : d < mapa.length := by omega
  obtain ⟨hta, hca⟩ := hinv a ho
  obtain ⟨htd, hcd⟩ := hinv d hdn
  have hbd := ler_perdaBase_defensor mapa a d dadoAtk dadoDef ha hd hne
  have hba := ler_perdaBase_atacante mapa a d dadoAtk dadoDef ha hd hne
  intro j hj
  by_cases hja : j = a
  · subst hja
    rw [ler_simularAtaque_atacante mapa j d dadoAtk dadoDef ha hd hne]
    by_cases hgt : dadoAtk > dadoDef
    · rw [if_pos hgt] at hbd hba
      rw [hbd, hba]
      split
      · exact ⟨by simp only []; omega, hca⟩
      · exact ⟨hta, hca⟩
    · rw [if_neg hgt] at hbd hba
      rw [hbd, hba]
      have hnc : ¬ (ler mapa d).tropas ≤ 0 := by omega
      rw [if_neg hnc]
      exact ⟨by simp only []; omega, hca⟩
  · by_cases hjd : j = d
    · subst hjd
      rw [ler_simularAtaque_defensor mapa a j dadoAtk dadoDef ha hd hne]
      by_cases hgt : dadoAtk > dadoDef
      · rw [if_pos hgt] at hbd hba
        rw [hbd, hba]
        split
        · exact ⟨by simp only []; omega, Or.inl hcorA⟩
        · rename_i hnc
          simp only [] at hnc
          exact ⟨by simp only []; omega, hcd⟩
      · rw [if_neg hgt] at hbd hba
        rw [hbd, hba]
        have hnc : ¬ (ler mapa j).tropas ≤ 0 := by omega
        rw [if_neg hnc]
        exact ⟨htd, hcd⟩
    · rw [ler_eq_of_getElem? _ _ j
        (getElem?_simularAtaque_outro mapa a d j dadoAtk dadoDef hja hjd)]
      exact hinv j hj

theorem somaTropas_set (mapa : List Territorio) (i : Nat) (t : Territorio)
    (h : i < mapa.length) :
    somaTropas (mapa.set i t) = somaTropas mapa - (ler mapa i).tropas + t.tropas := by
  induction mapa generalizing i with
  | nil => simp at h
  | cons x xs ih =>
    cases i with
    | zero =>
      simp only [List.set_cons_zero, somaTropas, List.map_cons, List.sum_cons, ler,
        List.getD_cons_zero]
      omega
    | succ k =>
      have hk : k < xs.length := by simpa using h
      have := ih k hk
      simp only [somaTropas, ler] at this
      simp only [List.set_cons_succ, somaTropas, List.map_cons, List.sum_cons, ler,
        List.getD_cons_succ, this]
      omega

theorem somaTropas_setTropas (mapa : List Territorio) (i : Nat) (v : Int)
    (h : i < mapa.length) :
    somaTropas (setTropas mapa i v) = somaTropas mapa - (ler mapa i).tropas + v := by
  unfold setTropas
  rw [somaTropas_set mapa i _ h]

theorem somaTropas_setCor (mapa : List Territorio) (i : Nat) (c : String)
    (h : i < mapa.length) :
    somaTropas (setCor mapa i c) = somaTropas mapa := by
  unfold setCor
  rw [somaTropas_set mapa i _ h]
  simp

theorem somaTropas_perdaBase (mapa : List Territorio) (a d : Nat) (dA dD : Int)
    (ha : a < mapa.length) (hd : d < mapa.length) :
    somaTropas (perdaBase mapa a d dA dD) = somaTropas mapa - 1 := by
  unfold perdaBase
  split
  · rw [somaTropas_setTropas mapa d _ hd]; omega
  · rw [somaTropas_setTropas mapa a _ ha]; omega

/-- Sum of the troops after the conquest check: the conquest resets the defender
to 1 troop and takes 1 from the attacker. -/
theorem somaTropas_checagemDeConquista (mapa : List Territorio) (a d : Nat)
    (ha : a < mapa.length) (hd : d < mapa.length) :
    somaTropas (checagemDeConquista mapa a d)
      = if (ler mapa d).tropas ≤ 0 then somaTropas mapa - (ler mapa d).tropas
        else somaTropas mapa := by
  unfold checagemDeConquista
  split
  · simp only []
    rw [somaTropas_setTropas _ a _ (by rw [length_setTropas, length_setCor]; exact ha),
      somaTropas_setTropas _ d _ (by rw [length_setCor]; exact hd),
      somaTropas_setCor _ d _ hd, ler_setCor]
    simp only [hd, and_self, if_true]
    omega
  · rfl

/-- A battle that passed the checks, on a map whose territories all hold 1 troop
or more, lowers the sum of the troops by exactly 1. -/
theorem somaTropas_simularAtaque (mapa : List Territorio) (origem destino dadoAtk dadoDef : Int)
    (hlen : mapa.length = 5)
    (hinv : ∀ i, i < 5 → 1 ≤ (ler mapa i).tropas)
    (hv : validarAtaque mapa origem destino = .ok) :
    somaTropas (simularAtaque mapa origem.toNat destino.toNat dadoAtk dadoDef)
      = somaTropas mapa - 1 := by
  obtain ⟨ho, hdn, hne⟩ := validarAtaque_ok_indices mapa origem destino hv
  generalize origem.toNat = a at *
  generalize destino.toNat = d at *
  have ha : a < mapa.length := by omega
  have hd : d < mapa.length := by omega
  have htd := hinv d hdn
  have hbd := ler_perdaBase_defensor mapa a d dadoAtk dadoDef ha hd hne
  unfold simularAtaque
  rw [somaTropas_checagemDeConquista _ a d (by rw [length_perdaBase]; exact ha)
    (by rw [length_perdaBase]; exact hd), somaTropas_perdaBase mapa a d _ _ ha hd]
  have hge : 0 ≤ (ler (perdaBase mapa a d dadoAtk dadoDef) d).tropas := by
    rw [hbd]
    split
    · simp only []; omega
    · omega
  split <;> omega

theorem length_le_somaTropas (mapa : List Territorio) (h : ∀ t ∈ mapa, 1 ≤ t.tropas) :
    (mapa.length : Int) ≤ somaTropas mapa := by
  induction mapa with
  | nil => simp [somaTropas]
  | cons x xs ih =>
    have hx := h x (List.mem_cons_self x xs)
    have hxs := ih (fun t ht => h t (List.mem_cons_of_mem x ht))
    simp only [somaTropas, List.map_cons, List.sum_cons, List.length_cons] at hxs ⊢
    push_cast
    omega

theorem tropas_eq_one_of_soma (mapa : List Territorio) (h : ∀ t ∈ mapa, 1 ≤ t.tropas)
    (hs : somaTropas mapa = mapa.length) : ∀ t ∈ mapa, t.tropas = 1 := by
  induction mapa with
  | nil => intro t ht; simp at ht
  | cons x xs ih =>
    have hx := h x (List.mem_cons_self x xs)
    have hxs : ∀ t ∈ xs, 1 ≤ t.tropas := fun t ht => h t (List.mem_cons_of_mem x ht)
    have hle := length_le_somaTropas xs hxs
    simp only [somaTropas, List.map_cons, List.sum_cons, List.length_cons] at hs hle
    push_cast at hs
    have hxs1 := ih hxs (by simp only [somaTropas]; omega)
    intro t ht
    rcases List.mem_cons.mp ht with rfl | ht'
    · omega
    · exact hxs1 t ht'

/-- Invariant of the reachable states. -/
theorem alcancavel_inv (n : Nat) (mapa : List Territorio) (h : Alcancavel n mapa) :
    mapa.length = 5 ∧
    (∀ i, i < 5 → 1 ≤ (ler mapa i).tropas ∧
      ((ler mapa i).cor = COR_JOGADOR ∨ (ler mapa i).cor = COR_INIMIGO)) ∧
    somaTropas mapa = 17 - n := by
  induction h with
  | inicio => decide
  | ataque n mapa mapa' origem destino dadoAtk dadoDef _ hf ih =>
    obtain ⟨hlen, hinv, hsoma⟩ := ih
    obtain ⟨hv, rfl⟩ := faseDeAtaque_ok mapa mapa' origem destino dadoAtk dadoDef hf
    refine ⟨?_, ?_, ?_⟩
    · rw [length_simularAtaque, hlen]
    · exact simularAtaque_inv mapa origem destino dadoAtk dadoDef hlen hinv hv
    · rw [somaTropas_simularAtaque mapa origem destino dadoAtk dadoDef hlen
        (fun i hi => (hinv i hi).1) hv, hsoma]
      push_cast
      omega

/-- A list of attacks that `jogar` accepts reaches its result. -/
theorem alcancavel_of_jogar (ataques : List (Int × Int × Int × Int)) (n : Nat)
    (mapa fim : List Territorio) (h : Alcancavel n mapa) (hj : jogar mapa ataques = some fim) :
    Alcancavel (n + ataques.length) fim := by
  induction ataques generalizing n mapa with
  | nil =>
    simp only [jogar, Option.some.injEq] at hj
    subst hj
    exact h
  | cons x xs ih =>
    obtain ⟨o, d, dA, dD⟩ := x
    simp only [jogar] at hj
    split at hj
    · rename_i mapa' hf
      have := ih (n + 1) mapa' (Alcancavel.ataque n mapa mapa' o d dA dD h hf) hj
      simpa [Nat.add_assoc, Nat.add_comm 1] using this
    · simp at hj

/-- C7: in every state reached from the initial map by attacks that passed the
checks of faseDeAtaque, resolved by simularAtaque with any dice, the map has 5
territories, no troop count is negative and every territory has exactly one of
the two colours, the player's or the enemy's. -/
theorem C7_troops_never_negative (n : Nat) (mapa : List Territorio) (h : Alcancavel n mapa) :
    mapa.length = 5 ∧
    ∀ t ∈ mapa, 0 ≤ t.tropas ∧
      ((t.cor = COR_JOGADOR ∧ t.cor ≠ COR_INIMIGO) ∨
       (t.cor = COR_INIMIGO ∧ t.cor ≠ COR_JOGADOR)) := by
  obtain ⟨hlen, hinv, -⟩ := alcancavel_inv n mapa h
  refine ⟨hlen, ?_⟩
  intro t ht
  obtain ⟨i, hi, rfl⟩ := mem_ler mapa t ht
  obtain ⟨h1, hc⟩ := hinv i (by omega)
  refine ⟨by omega, ?_⟩
  have hji : ¬ COR_JOGADOR = COR_INIMIGO := by decide
  have hij : ¬ COR_INIMIGO = COR_JOGADOR := by decide
  rcases hc with hc | hc
  · exact Or.inl ⟨hc, by rw [hc]; exact hji⟩
  · exact Or.inr ⟨hc, by rw [hc]; exact hij⟩

/-- C7 on the map reached by two won attacks of Brasil on Australia, the second
of which conquers it. -/
theorem C7_troops_never_negative_witness :
    jogar (inicializarTerritorios alocarMapa) [(0, 2, 6, 1), (0, 2, 6, 1)]
      = some
        [{ nome := "Brasil", cor := COR_JOGADOR, tropas := 4 },
         { nome := "Franca", cor := COR_JOGADOR, tropas := 3 },
         { nome := "Australia", cor := COR_JOGADOR, tropas := 1 },
         { nome := "Egito", cor := COR_INIMIGO, tropas := 4 },
         { nome := "Russia", cor := COR_INIMIGO, tropas := 3 }] ∧
    ∀ t ∈
        [({ nome := "Brasil", cor := COR_JOGADOR, tropas := 4 } : Territorio),
         { nome := "Franca", cor := COR_JOGADOR, tropas := 3 },
         { nome := "Australia", cor := COR_JOGADOR, tropas := 1 },
         { nome := "Egito", cor := COR_INIMIGO, tropas := 4 },
         { nome := "Russia", cor := COR_INIMIGO, tropas := 3 }],
      0 ≤ t.tropas ∧
      ((t.cor = COR_JOGADOR ∧ t.cor ≠ COR_INIMIGO) ∨
       (t.cor = COR_INIMIGO ∧ t.cor ≠ COR_JOGADOR)) :=
  ⟨by decide,
   (C7_troops_never_negative 2 _
      (alcancavel_of_jogar [(0, 2, 6, 1), (0, 2, 6, 1)] 0 _ _ Alcancavel.inicio
        (by decide))).2⟩

/-- C10: the game cannot be attacked in forever. In every state reached from the
initial map by n attacks that passed the checks, every territory holds at least
1 troop; any further attack that passes the checks lowers the sum of the troop
counts by exactly 1, whatever the dice, conquest included; the initial map holds
17 troops over 5 territories and a state reached by n attacks holds 17 - n; so
n is at most 12, and after 12 attacks the checks turn down every attack. -/
theorem C10_attacks_bounded (n : Nat) (mapa : List Territorio) (h : Alcancavel n mapa) :
    (∀ t ∈ mapa, 1 ≤ t.tropas) ∧
    (∀ (origem destino dadoAtk dadoDef : Int) (mapa' : List Territorio),
      faseDeAtaque mapa origem destino dadoAtk dadoDef = (.ok, mapa') →
      somaTropas mapa' = somaTropas mapa - 1) ∧
    somaTropas (inicializarTerritorios alocarMapa) = 17 ∧
    (inicializarTerritorios alocarMapa).length = 5 ∧
    somaTropas mapa = 17 - n ∧
    n ≤ 12 ∧
    (n = 12 → ∀ origem destino : Int, validarAtaque mapa origem destino ≠ .ok) := by
  obtain ⟨hlen, hinv, hsoma⟩ := alcancavel_inv n mapa h
  have hmem : ∀ t ∈ mapa, 1 ≤ t.tropas := by
    intro t ht
    obtain ⟨i, hi, rfl⟩ := mem_ler mapa t ht
    exact (hinv i (by omega)).1
  have hle := length_le_somaTropas mapa hmem
  rw [hlen, hsoma] at hle
  push_cast at hle
  refine ⟨hmem, ?_, by decide, by decide, hsoma, by omega, ?_⟩
  · intro origem destino dadoAtk dadoDef mapa' hf
    obtain ⟨hv, rfl⟩ := faseDeAtaque_ok mapa mapa' origem destino dadoAtk dadoDef hf
    exact somaTropas_simularAtaque mapa origem destino dadoAtk dadoDef hlen
      (fun i hi => (hinv i hi).1) hv
  · intro hn origem destino hv
    obtain ⟨ho, -, -⟩ := validarAtaque_ok_indices mapa origem destino hv
    obtain ⟨-, -, -, htro⟩ := (validarAtaque_eq_ok mapa origem destino).mp hv
    have hall := tropas_eq_one_of_soma mapa hmem (by rw [hsoma, hlen, hn]; norm_num)
    have := hall _ (ler_mem mapa origem.toNat (by omega))
    omega

/-- C10 on a game of 12 attacks: Brasil wins six times (Australia, Egito and
Russia go down to 1 troop), then Brasil loses four times and Franca twice; every
territory then holds 1 troop and no attack passes the checks. -/
theorem C10_attacks_bounded_witness :
    jogar (inicializarTerritorios alocarMapa)
        [(0, 2, 6, 1), (0, 3, 6, 1), (0, 3, 6, 1), (0, 3, 6, 1), (0, 4, 6, 1), (0, 4, 6, 1),
         (0, 2, 1, 6), (0, 2, 1, 6), (0, 2, 1, 6), (0, 2, 1, 6), (1, 2, 3, 3), (1, 2, 3, 3)]
      = some
        [{ nome := "Brasil", cor := COR_JOGADOR, tropas := 1 },
         { nome := "Franca", cor := COR_JOGADOR, tropas := 1 },
         { nome := "Australia", cor := COR_INIMIGO, tropas := 1 },
         { nome := "Egito", cor := COR_INIMIGO, tropas := 1 },
         { nome := "Russia", cor := COR_INIMIGO, tropas := 1 }] ∧
    ∀ origem destino : Int,
      validarAtaque
        [{ nome := "Brasil", cor := COR_JOGADOR, tropas := 1 },
         { nome := "Franca", cor := COR_JOGADOR, tropas := 1 },
         { nome := "Australia", cor := COR_INIMIGO, tropas := 1 },
         { nome := "Egito", cor := COR_INIMIGO, tropas := 1 },
         { nome := "Russia", cor := COR_INIMIGO, tropas := 1 }] origem destino ≠ .ok :=
  ⟨by decide,
   (C10_attacks_bounded 12 _
      (alcancavel_of_jogar
        [(0, 2, 6, 1), (0, 3, 6, 1), (0, 3, 6, 1), (0, 3, 6, 1), (0, 4, 6, 1), (0, 4, 6, 1),
         (0, 2, 1, 6), (0, 2, 1, 6), (0, 2, 1, 6), (0, 2, 1, 6), (1, 2, 3, 3), (1, 2, 3, 3)]
        0 _ _ Alcancavel.inicio (by decide))).2.2.2.2.2.2 rfl⟩

end War
